import Mathlib

/-!
Verification of the face-analysis query layer (`facefusion/face_analyser.py`).

Shallow embedding of the analysis/caching/query layer of the face analyser:
the `Face` value type, the detect→embed→normalize pipeline (`extract_faces`),
the cached query `get_many_faces` (with its Python `try/except` swallowing of
`AttributeError`/`ValueError` and the truthiness test on the cache entry),
`get_one_face` (with Python list indexing and the `IndexError` fallback),
`find_similar_faces`, `sort_by_direction` (the stable Python `sorted`, modelled
by `List.mergeSort`), `filter_by_age` (the `elif` chain) and `filter_by_gender`
(two independent `if`s).

Numbers are taken in an arbitrary `LinearOrderedField` (instantiated at `ℚ`
for concrete evaluation); external collaborators (detector, recognizer, cache)
are parameters, following the interfaces the module uses.
-/

/-- Axis-aligned bounding box `(x1, y1, x2, y2)`, the first four entries of a
raw detection record. -/
structure Bbox (α : Type) where
  x1 : α
  y1 : α
  x2 : α
  y2 : α
deriving DecidableEq, Repr

/-- The `Face` record built by `extract_faces`: bbox, 5 keypoints, detector
score, raw embedding, normed embedding, gender and age.  `normed_embedding`
is optional so that the `hasattr` test for a normed embedding used by
`find_similar_faces` is expressible for externally supplied faces. -/
structure Face (α : Type) where
  bbox : Bbox α
  kps : List (α × α)
  score : α
  embedding : List α
  normed_embedding : Option (List α)
  gender : Int
  age : Int
deriving DecidableEq, Repr

/-- The process-wide configuration read by `get_many_faces`
(`facefusion.globals.face_analyser_direction/age/gender`); `none` models a
falsy (unset) selector. -/
structure Globals where
  face_analyser_direction : Option String
  face_analyser_age : Option String
  face_analyser_gender : Option String
deriving DecidableEq, Repr

/-- The Python exception classes relevant to the clause
`except (AttributeError, ValueError)` of `get_many_faces`; `other` stands for any
exception of a different class. -/
inductive PyErr where
  | attributeError
  | valueError
  | other
deriving DecidableEq, Repr

/-- The function `sort_by_direction`: the stable Python `sorted` with a key
function, modelled
by `List.mergeSort` (stable merge sort).  `reverse=True` in Python compares
with the reversed order while keeping ties in encounter order, which is
`mergeSort` with the flipped non-strict comparator.  An unrecognized direction
returns the input unchanged. -/
def sort_by_direction {α : Type} [LinearOrderedField α]
    (faces : List (Face α)) (direction : String) : List (Face α) :=
  if direction == "left-right" then
    faces.mergeSort (fun a b => decide (a.bbox.x1 ≤ b.bbox.x1))
  else if direction == "right-left" then
    faces.mergeSort (fun a b => decide (b.bbox.x1 ≤ a.bbox.x1))
  else if direction == "top-bottom" then
    faces.mergeSort (fun a b => decide (a.bbox.y1 ≤ b.bbox.y1))
  else if direction == "bottom-top" then
    faces.mergeSort (fun a b => decide (b.bbox.y1 ≤ a.bbox.y1))
  else if direction == "small-large" then
    faces.mergeSort (fun a b =>
      decide ((a.bbox.x2 - a.bbox.x1) * (a.bbox.y2 - a.bbox.y1) ≤
        (b.bbox.x2 - b.bbox.x1) * (b.bbox.y2 - b.bbox.y1)))
  else if direction == "large-small" then
    faces.mergeSort (fun a b =>
      decide ((b.bbox.x2 - b.bbox.x1) * (b.bbox.y2 - b.bbox.y1) ≤
        (a.bbox.x2 - a.bbox.x1) * (a.bbox.y2 - a.bbox.y1)))
  else
    faces

/-- The `elif` chain of `filter_by_age`, deciding whether one face is appended
for the requested age class. -/
def keep_by_age {α : Type} (age : String) (face : Face α) : Bool :=
  if face.age < 13 && age == "child" then true
  else if face.age < 19 && age == "teen" then true
  else if face.age < 60 && age == "adult" then true
  else if face.age > 59 && age == "senior" then true
  else false

/-- The function `filter_by_age`: the loop appending each face that its
`elif` chain
accepts, i.e. a filter by `keep_by_age`. -/
def filter_by_age {α : Type} (faces : List (Face α)) (age : String) :
    List (Face α) :=
  faces.filter (keep_by_age age)

/-- The function `filter_by_gender`: per face, two independent `if`
statements, each of
which may append the face. -/
def filter_by_gender {α : Type} (faces : List (Face α)) (gender : String) :
    List (Face α) :=
  match faces with
  | [] => []
  | face :: rest =>
      (if face.gender == 1 && gender == "male" then [face] else []) ++
      (if face.gender == 0 && gender == "female" then [face] else []) ++
      filter_by_gender rest gender

/-- The function `numpy.dot` on two 1-D vectors: sum of pointwise
products. -/
def dot {α : Type} [LinearOrderedField α] (v w : List α) : α :=
  (List.zipWith (fun a b => a * b) v w).sum

/-- Sum of squares of a vector; `‖v‖₂² = sumSq v`. -/
def sumSq {α : Type} [LinearOrderedField α] (v : List α) : α :=
  (v.map (fun a => a * a)).sum

/-- Python list indexing `xs[i]` for `int` `i`: negative indices count from
the end; `none` models the `IndexError` raised when `i` is out of range. -/
def py_index {β : Type} (xs : List β) (i : Int) : Option β :=
  let j : Int := if i < 0 then i + xs.length else i
  if 0 ≤ j then xs.get? j.toNat else none

/-- One raw detection record as sliced by `extract_faces`:
`bbox = detection[0:4]`, `kps = detection[4:14].reshape((5, 2))`,
`score = detection[14]`. -/
structure Detection (α : Type) where
  bbox : Bbox α
  kps : List (α × α)
  score : α
deriving DecidableEq, Repr

/-- Whether a raw detection record contains a nonzero entry; the `numpy`
call `detections.any()` is true iff some entry of the detection array is
nonzero. -/
def Detection.isNonzero {α : Type} [LinearOrderedField α]
    (d : Detection α) : Bool :=
  d.bbox.x1 ≠ 0 || d.bbox.y1 ≠ 0 || d.bbox.x2 ≠ 0 || d.bbox.y2 ≠ 0 ||
    d.kps.any (fun p => p.1 ≠ 0 || p.2 ≠ 0) || d.score ≠ 0

/-- The external collaborators of the pipeline and the process-wide globals:
the per-frame detections of the detector (`face_detector.detect`), the recognizer
behind `create_embedding(frame, kps)`, `numpy.linalg.norm`, and the
configuration flags.  Frames are identified by their content, abstracted as a
`Nat` key (the cache collaborator is keyed on frame content). -/
structure Env (α : Type) where
  detections : Nat → List (Detection α)
  embed : Nat → List (α × α) → List α
  norm : List α → α
  globals : Globals

/-- The function `extract_faces(frame)`: if `detections.any()`, for each
raw detection
build a `Face` with the raw embedding from the recognizer and
`normed_embedding = embedding / numpy.linalg.norm(embedding)`; gender and age
are the placeholders `0`. -/
def extract_faces {α : Type} [LinearOrderedField α]
    (env : Env α) (frame : Nat) : List (Face α) :=
  let detections := env.detections frame
  if detections.any Detection.isNonzero then
    detections.map (fun d =>
      let e := env.embed frame d.kps
      { bbox := d.bbox
        kps := d.kps
        score := d.score
        embedding := e
        normed_embedding := some (e.map (fun x => x / env.norm e))
        gender := 0
        age := 0 })
  else []

/-- Sequencing of a Python statement that may raise, threading the mutable
state: on an exception the state reached so far is kept and the exception
propagates. -/
def pyBind {σ β γ : Type} (x : Except PyErr β × σ)
    (k : β → σ → Except PyErr γ × σ) : Except PyErr γ × σ :=
  match x with
  | (.ok b, s) => k b s
  | (.error e, s) => (.error e, s)

/-- The body of the `try` block of `get_many_faces`, over possibly-raising
collaborators for the five pipeline stages (cache lookup, extraction plus
cache store, sort, age filter, gender filter).  `if faces_cache:` is Python
truthiness: both a missing entry and a cached empty list take the
re-extraction branch. -/
def get_many_faces_core {σ α : Type}
    (getCache : σ → Except PyErr (Option (List (Face α))) × σ)
    (extract : σ → Except PyErr (List (Face α)) × σ)
    (setCache : List (Face α) → σ → Except PyErr Unit × σ)
    (sortStep : List (Face α) → String → σ → Except PyErr (List (Face α)) × σ)
    (ageStep : List (Face α) → String → σ → Except PyErr (List (Face α)) × σ)
    (genderStep : List (Face α) → String → σ → Except PyErr (List (Face α)) × σ)
    (g : Globals) (s : σ) : Except PyErr (List (Face α)) × σ :=
  pyBind (getCache s) fun faces_cache s =>
  pyBind (match faces_cache with
          | some (f :: fs) => (.ok (f :: fs), s)
          | _ =>
              pyBind (extract s) fun faces s =>
              pyBind (setCache faces s) fun _ s => (.ok faces, s)) fun faces s =>
  pyBind (match g.face_analyser_direction with
          | some d => sortStep faces d s
          | none => (.ok faces, s)) fun faces s =>
  pyBind (match g.face_analyser_age with
          | some a => ageStep faces a s
          | none => (.ok faces, s)) fun faces s =>
  pyBind (match g.face_analyser_gender with
          | some c => genderStep faces c s
          | none => (.ok faces, s)) fun faces s =>
  (.ok faces, s)

/-- The function `get_many_faces`: the `try` body guarded by
`except (AttributeError, ValueError): return []`; any other exception
propagates. -/
def get_many_faces {σ α : Type}
    (getCache : σ → Except PyErr (Option (List (Face α))) × σ)
    (extract : σ → Except PyErr (List (Face α)) × σ)
    (setCache : List (Face α) → σ → Except PyErr Unit × σ)
    (sortStep : List (Face α) → String → σ → Except PyErr (List (Face α)) × σ)
    (ageStep : List (Face α) → String → σ → Except PyErr (List (Face α)) × σ)
    (genderStep : List (Face α) → String → σ → Except PyErr (List (Face α)) × σ)
    (g : Globals) (s : σ) : Except PyErr (List (Face α)) × σ :=
  match get_many_faces_core getCache extract setCache sortStep ageStep
      genderStep g s with
  | (.error .attributeError, s) => (.ok [], s)
  | (.error .valueError, s) => (.ok [], s)
  | r => r

/-- The mutable state the query layer touches: the frame cache (an
association list keyed on frame identity, most recent entry first) and, for
observing claim C1, a count of detector invocations. -/
structure World (α : Type) where
  cache : List (Nat × List (Face α))
  detectCalls : Nat
deriving DecidableEq, Repr

/-- The function `get_faces_cache(frame)`: the lookup of the cache
collaborator. -/
def cache_get {α : Type} (c : List (Nat × List (Face α))) (frame : Nat) :
    Option (List (Face α)) :=
  (c.find? (fun e => e.1 == frame)).map (fun e => e.2)

/-- The cache-lookup stage over `World`: never raises. -/
def getCacheW {α : Type} (frame : Nat) (w : World α) :
    Except PyErr (Option (List (Face α))) × World α :=
  (.ok (cache_get w.cache frame), w)

/-- The extraction stage over `World`: runs the detector (counted) and
returns `extract_faces`. -/
def extractW {α : Type} [LinearOrderedField α] (env : Env α) (frame : Nat)
    (w : World α) : Except PyErr (List (Face α)) × World α :=
  (.ok (extract_faces env frame),
    { w with detectCalls := w.detectCalls + 1 })

/-- The function `set_faces_cache(frame, faces)`: stores the extraction
result under the identity of the frame. -/
def setCacheW {α : Type} (frame : Nat) (faces : List (Face α)) (w : World α) :
    Except PyErr Unit × World α :=
  (.ok (), { w with cache := (frame, faces) :: w.cache })

/-- Lifts one of the pure sort/filter functions of this module to a
non-raising pipeline stage. -/
def pureStep {σ α : Type} (op : List (Face α) → String → List (Face α))
    (faces : List (Face α)) (c : String) (s : σ) :
    Except PyErr (List (Face α)) × σ :=
  (.ok (op faces c), s)

/-- The call `get_many_faces(frame)` as the module runs it: the generic body
instantiated with the real cache, detector pipeline and this same module spelled-out
sort/filter functions. -/
def get_many_faces_run {α : Type} [LinearOrderedField α] (env : Env α)
    (frame : Nat) (w : World α) : Except PyErr (List (Face α)) × World α :=
  get_many_faces (getCacheW frame) (extractW env frame) (setCacheW frame)
    (pureStep sort_by_direction) (pureStep filter_by_age)
    (pureStep filter_by_gender) env.globals w

/-- The sort/filter post-processing `get_many_faces` applies after the cache
step, in its fixed order, for each configured selector. -/
def post_process {α : Type} [LinearOrderedField α] (g : Globals)
    (faces : List (Face α)) : List (Face α) :=
  let faces := match g.face_analyser_direction with
    | some d => sort_by_direction faces d
    | none => faces
  let faces := match g.face_analyser_age with
    | some a => filter_by_age faces a
    | none => faces
  match g.face_analyser_gender with
  | some c => filter_by_gender faces c
  | none => faces

/-- The function `get_one_face(frame, position)`: `many_faces[position]`,
falling back to
`many_faces[-1]` on `IndexError`, and `None` on an empty list. -/
def get_one_face {α : Type} [LinearOrderedField α] (env : Env α)
    (frame : Nat) (position : Int) (w : World α) :
    Except PyErr (Option (Face α)) × World α :=
  pyBind (get_many_faces_run env frame w) fun many_faces w =>
    match many_faces with
    | [] => (.ok none, w)
    | f :: fs =>
        (.ok (match py_index (f :: fs) position with
              | some face => some face
              | none => py_index (f :: fs) (-1)), w)

/-- An environment whose detector finds no face on any frame, over `ℚ`, with
all analyser selectors unset. -/
def envNoFace : Env ℚ :=
  { detections := fun _ => []
    embed := fun _ _ => []
    norm := fun _ => 0
    globals := { face_analyser_direction := none
                 face_analyser_age := none
                 face_analyser_gender := none } }

/-- An environment whose detector finds exactly one (nonzero) face on every
frame, over `ℚ`, with all analyser selectors unset; the recognizer returns
the embedding `[3, 4]`, whose L2 norm is `5`. -/
def envOneFace : Env ℚ :=
  { detections := fun _ =>
      [{ bbox := { x1 := 1, y1 := 2, x2 := 3, y2 := 4 }
         kps := [(1, 1), (2, 2), (3, 3), (4, 4), (5, 5)]
         score := 9 / 10 }]
    embed := fun _ _ => [3, 4]
    norm := fun v => if v = [3, 4] then 5 else 1
    globals := { face_analyser_direction := none
                 face_analyser_age := none
                 face_analyser_gender := none } }

/-- The function `find_similar_faces(frame, reference_face, face_distance)`:
keeps, in
order, each face of `get_many_faces(frame)` such that both the face and the
reference have a `normed_embedding` and
`1 - numpy.dot(face.normed_embedding, reference_face.normed_embedding)` is
strictly below `face_distance`. -/
def find_similar_faces {α : Type} [LinearOrderedField α] (env : Env α)
    (frame : Nat) (reference_face : Face α) (face_distance : α)
    (w : World α) : Except PyErr (List (Face α)) × World α :=
  pyBind (get_many_faces_run env frame w) fun many_faces w =>
    (.ok (if many_faces.isEmpty then []
          else many_faces.filter (fun face =>
            match face.normed_embedding, reference_face.normed_embedding with
            | some fe, some re => decide (1 - dot fe re < face_distance)
            | _, _ => false)), w)

/-- Modelled from the words of the spec for claim C5, to be compared with the
source-derived `find_similar_faces`: "for each face in `get_many_faces(frame)`
that has a `normed_embedding` and whose reference also has one, computes
`distance = 1 − dot(...)` and includes the face iff `distance < max_distance`
(strict inequality); order preserved from the source sequence". -/
def similar_faces_spec {α : Type} [LinearOrderedField α]
    (many_faces : List (Face α)) (reference_face : Face α)
    (max_distance : α) : List (Face α) :=
  many_faces.filter (fun face =>
    face.normed_embedding.isSome && reference_face.normed_embedding.isSome &&
      decide (1 - dot (face.normed_embedding.getD [])
        (reference_face.normed_embedding.getD []) < max_distance))

/-- A sample face of age exactly 59 (all other fields inert), over `ℚ`. -/
def face59 : Face ℚ :=
  { bbox := { x1 := 0, y1 := 0, x2 := 0, y2 := 0 }
    kps := []
    score := 0
    embedding := []
    normed_embedding := none
    gender := 0
    age := 59 }

/-- A sample face builder with the given bbox `x1`, gender and age (other
fields inert), over `ℚ`. -/
def mkFace (x1 : ℚ) (gender : Int) (age : Int) : Face ℚ :=
  { bbox := { x1 := x1, y1 := 0, x2 := 0, y2 := 0 }
    kps := []
    score := 0
    embedding := []
    normed_embedding := none
    gender := gender
    age := age }

/-- The `Face` that `extract_faces` builds from the single `envOneFace`
detection: embedding `[3, 4]`, normed embedding `[3/5, 4/5]`. -/
def faceOne : Face ℚ :=
  { bbox := { x1 := 1, y1 := 2, x2 := 3, y2 := 4 }
    kps := [(1, 1), (2, 2), (3, 3), (4, 4), (5, 5)]
    score := 9 / 10
    embedding := [3, 4]
    normed_embedding := some [3 / 5, 4 / 5]
    gender := 0
    age := 0 }

/-- A cache-lookup collaborator that misses without raising (for exercising
the exception path of `get_many_faces`). -/
def okGetCache : Unit → Except PyErr (Option (List (Face ℚ))) × Unit :=
  fun s => (.ok none, s)

/-- An extraction collaborator returning one face without raising. -/
def okExtract : Unit → Except PyErr (List (Face ℚ)) × Unit :=
  fun s => (.ok [faceOne], s)

/-- A cache-store collaborator that never raises. -/
def okSetCache : List (Face ℚ) → Unit → Except PyErr Unit × Unit :=
  fun _ s => (.ok (), s)

/-- An age-filter stage that raises `AttributeError` (e.g. a cached object
without the expected attribute). -/
def failAgeStep : List (Face ℚ) → String → Unit →
    Except PyErr (List (Face ℚ)) × Unit :=
  fun _ _ s => (.error .attributeError, s)

/-- Globals selecting only the `adult` age filter. -/
def gAdult : Globals :=
  { face_analyser_direction := none
    face_analyser_age := some "adult"
    face_analyser_gender := none }

/-!
Theorems.
-/

section Checks

example : py_index [10, 20, 30] 1 = some 20 := by decide
example : py_index [10, 20, 30] (-1) = some 30 := by decide
example : py_index [10, 20, 30] 3 = none := by decide
example : py_index ([] : List Nat) 0 = none := by decide
example : py_index [10, 20, 30] (-4) = none := by decide

end Checks

/-- A freshly stored cache entry is found by the next lookup for the same
frame. -/
theorem cache_get_cons_self {α : Type} (frame : Nat)
    (v : List (Face α)) (c : List (Nat × List (Face α))) :
    cache_get ((frame, v) :: c) frame = some v := by
  simp [cache_get]

/-- Characterization of one `get_many_faces` call: a truthy cache entry is
post-processed as is and the state is untouched; a missing or empty entry
triggers extraction, one detector invocation, and a cache store of the raw
extraction result (even when empty), before post-processing. -/
theorem get_many_faces_run_eq {α : Type} [LinearOrderedField α] (env : Env α)
    (frame : Nat) (w : World α) :
    get_many_faces_run env frame w =
      match cache_get w.cache frame with
      | some (x :: xs) => (.ok (post_process env.globals (x :: xs)), w)
      | _ =>
          (.ok (post_process env.globals (extract_faces env frame)),
            { cache := (frame, extract_faces env frame) :: w.cache,
              detectCalls := w.detectCalls + 1 }) := by
  cases hc : cache_get w.cache frame with
  | none =>
      cases hd : env.globals.face_analyser_direction <;>
        cases ha : env.globals.face_analyser_age <;>
          cases hg : env.globals.face_analyser_gender <;>
            simp [get_many_faces_run, get_many_faces, get_many_faces_core,
              getCacheW, extractW, setCacheW, pureStep, pyBind, hc, hd, ha, hg,
              post_process]
  | some l =>
      cases l with
      | nil =>
          cases hd : env.globals.face_analyser_direction <;>
            cases ha : env.globals.face_analyser_age <;>
              cases hg : env.globals.face_analyser_gender <;>
                simp [get_many_faces_run, get_many_faces, get_many_faces_core,
                  getCacheW, extractW, setCacheW, pureStep, pyBind, hc, hd, ha,
                  hg, post_process]
      | cons x xs =>
          cases hd : env.globals.face_analyser_direction <;>
            cases ha : env.globals.face_analyser_age <;>
              cases hg : env.globals.face_analyser_gender <;>
                simp [get_many_faces_run, get_many_faces, get_many_faces_core,
                  getCacheW, extractW, setCacheW, pureStep, pyBind, hc, hd, ha,
                  hg, post_process]

/-- C1 counterexample: with a detector that reports zero faces, the first
`get_many_faces` call on a fresh frame stores the empty result and has
invoked the detector once, yet the second call on the unchanged frame invokes
the detector again (the empty cached entry is falsy under `if faces_cache:`),
refuting "does not re-invoke the detector, including when the first call
detected zero faces". -/
theorem get_many_faces_zero_faces_reinvokes_cex :
    ((get_many_faces_run envNoFace 0 ⟨[], 0⟩).2).detectCalls = 1 ∧
    ((get_many_faces_run envNoFace 0
        ((get_many_faces_run envNoFace 0 ⟨[], 0⟩).2)).2).detectCalls = 2 ∧
    ¬ ((get_many_faces_run envNoFace 0
        ((get_many_faces_run envNoFace 0 ⟨[], 0⟩).2)).2).detectCalls =
      ((get_many_faces_run envNoFace 0 ⟨[], 0⟩).2).detectCalls := by
  decide

/-- C1 (amended): a second `get_many_faces` call on the unchanged frame
always returns the same sequence as the first; when the extraction
result is nonempty (or a truthy cache entry already existed) the second call
is served from the cache without re-invoking the detector.  (When zero faces
were detected, the stored empty entry is falsy, so the detector runs again —
still yielding the same, empty, sequence.) -/
theorem get_many_faces_second_call {α : Type} [LinearOrderedField α]
    (env : Env α) (frame : Nat) (w : World α) :
    (get_many_faces_run env frame
        ((get_many_faces_run env frame w).2)).1 =
      (get_many_faces_run env frame w).1 ∧
    (extract_faces env frame ≠ [] →
      ((get_many_faces_run env frame
          ((get_many_faces_run env frame w).2)).2).detectCalls =
        ((get_many_faces_run env frame w).2).detectCalls) := by
  cases hc : cache_get w.cache frame with
  | none =>
      cases hE : extract_faces env frame with
      | nil =>
          refine ⟨?_, fun h => absurd rfl h⟩
          simp [get_many_faces_run_eq, hc, hE, cache_get_cons_self]
      | cons x xs =>
          simp [get_many_faces_run_eq, hc, hE, cache_get_cons_self]
  | some l =>
      cases l with
      | nil =>
          cases hE : extract_faces env frame with
          | nil =>
              refine ⟨?_, fun h => absurd rfl h⟩
              simp [get_many_faces_run_eq, hc, hE, cache_get_cons_self]
          | cons x xs =>
              simp [get_many_faces_run_eq, hc, hE, cache_get_cons_self]
      | cons x xs =>
          simp [get_many_faces_run_eq, hc]

/-- Witness for C1 (amended) at the one-face environment: extraction is
nonempty, the two calls agree, and the detector is not re-invoked. -/
theorem get_many_faces_second_call_witness :
    extract_faces envOneFace 0 ≠ [] ∧
    ((get_many_faces_run envOneFace 0
        ((get_many_faces_run envOneFace 0 ⟨[], 0⟩).2)).1 =
      (get_many_faces_run envOneFace 0 ⟨[], 0⟩).1 ∧
    ((get_many_faces_run envOneFace 0
        ((get_many_faces_run envOneFace 0 ⟨[], 0⟩).2)).2).detectCalls =
      ((get_many_faces_run envOneFace 0 ⟨[], 0⟩).2).detectCalls) :=
  ⟨by decide,
    (get_many_faces_second_call envOneFace 0 ⟨[], 0⟩).1,
    (get_many_faces_second_call envOneFace 0 ⟨[], 0⟩).2 (by decide)⟩

/-- C2: on a frame for which the detector reports no detections,
`extract_faces` returns the empty sequence, and the extraction stage
completes normally (`.ok`, no exception raised). -/
theorem extract_faces_no_detections {α : Type} [LinearOrderedField α]
    (env : Env α) (frame : Nat) (w : World α)
    (h : env.detections frame = []) :
    extract_faces env frame = [] ∧
    extractW env frame w =
      (.ok [], { w with detectCalls := w.detectCalls + 1 }) := by
  have he : extract_faces env frame = [] := by
    simp [extract_faces, h]
  exact ⟨he, by simp [extractW, he]⟩

/-- Witness for C2: the no-face environment reports no detections on frame 0
and extraction returns the empty list without raising. -/
theorem extract_faces_no_detections_witness :
    envNoFace.detections 0 = [] ∧
    (extract_faces envNoFace 0 = [] ∧
      extractW envNoFace 0 ⟨[], 0⟩ = (.ok [], ⟨[], 1⟩)) :=
  ⟨rfl, extract_faces_no_detections envNoFace 0 ⟨[], 0⟩ rfl⟩

/-- C3 counterexample: a face of age exactly 59 IS kept by
`filter_by_age` with class adult (the code keeps `age < 60`), refuting the
claim that no age band classifies age 59. -/
theorem filter_by_age_59_adult_cex :
    face59.age = 59 ∧ filter_by_age [face59] "adult" = [face59] := by
  decide

/-- C3 (amended): a face of age exactly 59 is classified by exactly one age
band: `filter_by_age` with class `adult` keeps it (it keeps every face of the
input with age 59, since `59 < 60`), while class `senior` drops it
(`59 > 59` fails). -/
theorem filter_by_age_59_bands {α : Type} (faces : List (Face α))
    (f : Face α) (h : f.age = 59) :
    (f ∈ filter_by_age faces "adult" ↔ f ∈ faces) ∧
    f ∉ filter_by_age faces "senior" := by
  constructor
  · simp [filter_by_age, List.mem_filter, keep_by_age, h]
  · simp [filter_by_age, List.mem_filter, keep_by_age, h]

/-- Witness for C3 (amended) at the concrete age-59 face. -/
theorem filter_by_age_59_bands_witness :
    face59.age = 59 ∧
    ((face59 ∈ filter_by_age [face59] "adult" ↔ face59 ∈ [face59]) ∧
      face59 ∉ filter_by_age [face59] "senior") :=
  ⟨by decide, filter_by_age_59_bands [face59] face59 (by decide)⟩

/-- C4: whenever the `try` body of `get_many_faces` (cache lookup, extraction
and store, sort, age filter, gender filter, over arbitrary collaborators)
terminates with an `AttributeError` or a `ValueError`, the call returns the
empty sequence normally, with whatever state the pipeline reached; the error
is not propagated. -/
theorem get_many_faces_swallows {σ α : Type}
    (getCache : σ → Except PyErr (Option (List (Face α))) × σ)
    (extract : σ → Except PyErr (List (Face α)) × σ)
    (setCache : List (Face α) → σ → Except PyErr Unit × σ)
    (sortStep : List (Face α) → String → σ → Except PyErr (List (Face α)) × σ)
    (ageStep : List (Face α) → String → σ → Except PyErr (List (Face α)) × σ)
    (genderStep : List (Face α) → String → σ → Except PyErr (List (Face α)) × σ)
    (g : Globals) (s s' : σ) (e : PyErr)
    (hrun : get_many_faces_core getCache extract setCache sortStep ageStep
        genderStep g s = (.error e, s'))
    (he : e = .attributeError ∨ e = .valueError) :
    get_many_faces getCache extract setCache sortStep ageStep genderStep g s =
      (.ok [], s') := by
  rcases he with h | h <;> subst h <;> simp [get_many_faces, hrun]

/-- Witness for C4: with a cache miss, a successful extraction and an age
filter stage that raises `AttributeError`, the `try` body fails with
`AttributeError` and `get_many_faces` returns the empty sequence. -/
theorem get_many_faces_swallows_witness :
    get_many_faces_core okGetCache okExtract okSetCache
        (pureStep sort_by_direction) failAgeStep (pureStep filter_by_gender)
        gAdult () = (.error .attributeError, ()) ∧
    get_many_faces okGetCache okExtract okSetCache
        (pureStep sort_by_direction) failAgeStep (pureStep filter_by_gender)
        gAdult () = (.ok [], ()) :=
  ⟨rfl,
    get_many_faces_swallows okGetCache okExtract okSetCache
      (pureStep sort_by_direction) failAgeStep (pureStep filter_by_gender)
      gAdult () () .attributeError rfl (Or.inl rfl)⟩

/-- C5: `find_similar_faces` returns exactly the faces of
`get_many_faces(frame)` — in their relative order and without raising — that
have a `normed_embedding`, when the reference also has one, and whose cosine
distance `1 - dot` to the reference is strictly below `max_distance`
(`similar_faces_spec` is that filter, written from the words of the spec). -/
theorem find_similar_faces_exact {α : Type} [LinearOrderedField α]
    (env : Env α) (frame : Nat) (reference_face : Face α) (max_distance : α)
    (w : World α) (faces : List (Face α)) (w' : World α)
    (hrun : get_many_faces_run env frame w = (.ok faces, w')) :
    find_similar_faces env frame reference_face max_distance w =
      (.ok (similar_faces_spec faces reference_face max_distance), w') := by
  simp only [find_similar_faces, pyBind, hrun]
  cases faces with
  | nil => simp [similar_faces_spec]
  | cons x xs =>
      simp only [List.isEmpty_cons, Bool.false_eq_true, if_false,
        similar_faces_spec, Prod.mk.injEq, and_true]
      congr 1
      apply List.filter_congr
      intro f _
      cases hf : f.normed_embedding <;>
        cases hr : reference_face.normed_embedding <;> simp [hf, hr]

/-- Witness for C5 at the one-face environment, with the extracted face
itself as reference and distance 1. -/
theorem find_similar_faces_exact_witness :
    get_many_faces_run envOneFace 0 ⟨[], 0⟩ =
      (.ok [faceOne], ⟨[(0, [faceOne])], 1⟩) ∧
    find_similar_faces envOneFace 0 faceOne 1 ⟨[], 0⟩ =
      (.ok (similar_faces_spec [faceOne] faceOne 1), ⟨[(0, [faceOne])], 1⟩) :=
  ⟨by rfl,
    find_similar_faces_exact envOneFace 0 faceOne 1 ⟨[], 0⟩ [faceOne]
      ⟨[(0, [faceOne])], 1⟩ (by rfl)⟩

/-- Python indexing at a natural-number position is `List.get?`. -/
theorem py_index_natCast {β : Type} (xs : List β) (pos : Nat) :
    py_index xs (pos : Int) = xs.get? pos := by
  have h0 : ¬ ((pos : Int) < 0) := by omega
  have h1 : (0 : Int) ≤ (pos : Int) := by omega
  simp [py_index, h0, h1]

/-- Python indexing at `-1` on a nonempty list is the last element. -/
theorem py_index_neg_one {β : Type} (x : β) (xs : List β) :
    py_index (x :: xs) (-1) = (x :: xs).getLast? := by
  have h0 : ((-1 : Int) < 0) := by omega
  have h1 : (0 : Int) ≤ (-1 : Int) + ((x :: xs).length : Int) := by
    simp [List.length_cons]
  have h2 : ((-1 : Int) + ((x :: xs).length : Int)).toNat = xs.length := by
    simp [List.length_cons]
  simp only [py_index, if_pos h0, if_pos h1, h2]
  rw [List.getLast?_eq_getElem?]
  simp [List.length_cons]

/-- C6: `get_one_face(frame, position)` returns the element of
`get_many_faces(frame)` at that position; out of range on a non-empty list it
falls back to the last element, and on an empty list it returns nothing. -/
theorem get_one_face_spec {α : Type} [LinearOrderedField α] (env : Env α)
    (frame : Nat) (pos : Nat) (w : World α) (faces : List (Face α))
    (w' : World α)
    (hrun : get_many_faces_run env frame w = (.ok faces, w')) :
    get_one_face env frame (pos : Int) w =
      (.ok (if faces.isEmpty then none
            else if pos < faces.length then faces.get? pos
            else faces.getLast?), w') := by
  cases faces with
  | nil => simp [get_one_face, pyBind, hrun]
  | cons x xs =>
      by_cases hlt : pos < (x :: xs).length
      · have hf : (x :: xs)[pos]? = some ((x :: xs).get ⟨pos, hlt⟩) := by
          rw [← List.get?_eq_getElem?]
          exact List.get?_eq_get (l := x :: xs) hlt
        have hlt2 : pos < xs.length + 1 := by simpa using hlt
        simp [get_one_face, pyBind, hrun, py_index_natCast, hf, hlt2]
      · have hn : (x :: xs)[pos]? = none := by
          rw [← List.get?_eq_getElem?]
          exact List.get?_eq_none.mpr (le_of_not_lt hlt)
        have hlt2 : ¬ pos < xs.length + 1 := by simpa using hlt
        simp [get_one_face, pyBind, hrun, py_index_natCast, hn, hlt2,
          py_index_neg_one]

/-- Witness for C6 at the one-face environment with the out-of-range
position 5: the single face (the last one) is returned. -/
theorem get_one_face_spec_witness :
    get_many_faces_run envOneFace 0 ⟨[], 0⟩ =
      (.ok [faceOne], ⟨[(0, [faceOne])], 1⟩) ∧
    get_one_face envOneFace 0 ((5 : Nat) : Int) ⟨[], 0⟩ =
      (.ok (if [faceOne].isEmpty then none
            else if 5 < [faceOne].length then [faceOne].get? 5
            else [faceOne].getLast?), ⟨[(0, [faceOne])], 1⟩) :=
  ⟨by rfl,
    get_one_face_spec envOneFace 0 5 ⟨[], 0⟩ [faceOne]
      ⟨[(0, [faceOne])], 1⟩ (by rfl)⟩

/-- C7: on a face list with pairwise distinct bbox `x1` values, sorting
`left-right` (stable ascending `x1`) and then sorting the result
`right-left` (stable descending `x1`) yields exactly the reverse of the
first result. -/
theorem sort_left_right_then_right_left {α : Type} [LinearOrderedField α]
    (faces : List (Face α))
    (hd : faces.Pairwise (fun a b => a.bbox.x1 ≠ b.bbox.x1)) :
    sort_by_direction (sort_by_direction faces "left-right") "right-left" =
      (sort_by_direction faces "left-right").reverse := by
  have hlr : sort_by_direction faces "left-right" =
      faces.mergeSort (fun a b => decide (a.bbox.x1 ≤ b.bbox.x1)) := by
    simp [sort_by_direction]
  have hrl : ∀ l : List (Face α), sort_by_direction l "right-left" =
      l.mergeSort (fun a b => decide (b.bbox.x1 ≤ a.bbox.x1)) := by
    intro l
    simp [sort_by_direction]
  rw [hlr, hrl]
  have hperm1 : (faces.mergeSort
      (fun a b => decide (a.bbox.x1 ≤ b.bbox.x1))).Perm faces :=
    List.mergeSort_perm faces _
  have hsorted1 : (faces.mergeSort
      (fun a b => decide (a.bbox.x1 ≤ b.bbox.x1))).Pairwise
        (fun a b => decide (a.bbox.x1 ≤ b.bbox.x1) = true) :=
    List.sorted_mergeSort
      (fun a b c h1 h2 => by
        simp only [decide_eq_true_eq] at *
        exact le_trans h1 h2)
      (fun a b => by simp [le_total]) faces
  have hne1 : (faces.mergeSort
      (fun a b => decide (a.bbox.x1 ≤ b.bbox.x1))).Pairwise
        (fun a b => a.bbox.x1 ≠ b.bbox.x1) :=
    (List.Perm.pairwise_iff (fun h => Ne.symm h) hperm1).mpr hd
  have hlt1 : (faces.mergeSort
      (fun a b => decide (a.bbox.x1 ≤ b.bbox.x1))).Pairwise
        (fun a b => a.bbox.x1 < b.bbox.x1) :=
    (hsorted1.and hne1).imp
      (fun h => lt_of_le_of_ne (by simpa using h.1) h.2)
  have hperm2 : ((faces.mergeSort
      (fun a b => decide (a.bbox.x1 ≤ b.bbox.x1))).mergeSort
        (fun a b => decide (b.bbox.x1 ≤ a.bbox.x1))).Perm
      (faces.mergeSort (fun a b => decide (a.bbox.x1 ≤ b.bbox.x1))) :=
    List.mergeSort_perm _ _
  have hsorted2 : ((faces.mergeSort
      (fun a b => decide (a.bbox.x1 ≤ b.bbox.x1))).mergeSort
        (fun a b => decide (b.bbox.x1 ≤ a.bbox.x1))).Pairwise
        (fun a b => decide (b.bbox.x1 ≤ a.bbox.x1) = true) :=
    List.sorted_mergeSort
      (fun a b c h1 h2 => by
        simp only [decide_eq_true_eq] at *
        exact le_trans h2 h1)
      (fun a b => by simp [le_total]) _
  have hne2 : ((faces.mergeSort
      (fun a b => decide (a.bbox.x1 ≤ b.bbox.x1))).mergeSort
        (fun a b => decide (b.bbox.x1 ≤ a.bbox.x1))).Pairwise
        (fun a b => a.bbox.x1 ≠ b.bbox.x1) :=
    (List.Perm.pairwise_iff (fun h => Ne.symm h) hperm2).mpr hne1
  have hgt2 : List.Sorted (fun a b : Face α => b.bbox.x1 < a.bbox.x1)
      ((faces.mergeSort
        (fun a b => decide (a.bbox.x1 ≤ b.bbox.x1))).mergeSort
          (fun a b => decide (b.bbox.x1 ≤ a.bbox.x1))) :=
    (hsorted2.and hne2).imp
      (fun h => lt_of_le_of_ne (by simpa using h.1) (Ne.symm h.2))
  have hrev : List.Sorted (fun a b : Face α => b.bbox.x1 < a.bbox.x1)
      (faces.mergeSort
        (fun a b => decide (a.bbox.x1 ≤ b.bbox.x1))).reverse :=
    List.pairwise_reverse.mpr hlt1
  have hpermr : ((faces.mergeSort
      (fun a b => decide (a.bbox.x1 ≤ b.bbox.x1))).mergeSort
        (fun a b => decide (b.bbox.x1 ≤ a.bbox.x1))).Perm
      (faces.mergeSort (fun a b => decide (a.bbox.x1 ≤ b.bbox.x1))).reverse :=
    hperm2.trans (faces.mergeSort
      (fun a b => decide (a.bbox.x1 ≤ b.bbox.x1))).reverse_perm.symm
  letI : IsAntisymm (Face α) (fun a b => b.bbox.x1 < a.bbox.x1) :=
    ⟨fun a b h1 h2 => absurd h2 (lt_asymm h1)⟩
  exact List.eq_of_perm_of_sorted hpermr hgt2 hrev

/-- Witness for C7 on two faces with distinct `x1` values 2 and 1. -/
theorem sort_left_right_then_right_left_witness :
    [mkFace 2 0 0, mkFace 1 0 0].Pairwise
      (fun a b => a.bbox.x1 ≠ b.bbox.x1) ∧
    sort_by_direction
        (sort_by_direction [mkFace 2 0 0, mkFace 1 0 0] "left-right")
        "right-left" =
      (sort_by_direction [mkFace 2 0 0, mkFace 1 0 0] "left-right").reverse :=
  ⟨by decide,
    sort_left_right_then_right_left [mkFace 2 0 0, mkFace 1 0 0] (by decide)⟩

/-- For the `male` class only the first `if` of the loop body can fire, so
the result is the faces with `gender == 1`, in order. -/
theorem filter_by_gender_male_eq {α : Type} (faces : List (Face α)) :
    filter_by_gender faces "male" =
      faces.filter (fun f => f.gender == 1) := by
  induction faces with
  | nil => rfl
  | cons f rest ih =>
      by_cases h : f.gender == 1 <;>
        simp [filter_by_gender, List.filter_cons, h, ih]

/-- For the `female` class only the second `if` of the loop body can fire,
so the result is the faces with `gender == 0`, in order. -/
theorem filter_by_gender_female_eq {α : Type} (faces : List (Face α)) :
    filter_by_gender faces "female" =
      faces.filter (fun f => f.gender == 0) := by
  induction faces with
  | nil => rfl
  | cons f rest ih =>
      by_cases h : f.gender == 0 <;>
        simp [filter_by_gender, List.filter_cons, h, ih]

/-- Two filters by mutually exclusive predicates, concatenated, are a
permutation of the single filter by their disjunction. -/
theorem filter_append_perm_of_exclusive {β : Type} (p q : β → Bool)
    (h : ∀ x, ¬(p x = true ∧ q x = true)) (l : List β) :
    (l.filter p ++ l.filter q).Perm (l.filter (fun x => p x || q x)) := by
  induction l with
  | nil => simp
  | cons x xs ih =>
      by_cases hp : p x = true
      · have hq : q x = false :=
          eq_false_of_ne_true (fun hq => h x ⟨hp, hq⟩)
        simp [List.filter_cons, hp, hq]
        exact ih
      · by_cases hq : q x = true
        · simp [List.filter_cons, hp, hq]
          exact List.perm_middle.trans (ih.cons x)
        · simp [List.filter_cons, hp, hq]
          exact ih

/-- C8: `filter_by_gender` with `male` and with `female` partition the
input: no face is in both results, and together (as a multiset) they are the
input minus the faces whose gender value is neither 0 nor 1. -/
theorem filter_by_gender_partition {α : Type} (faces : List (Face α)) :
    (∀ f, ¬(f ∈ filter_by_gender faces "male" ∧
      f ∈ filter_by_gender faces "female")) ∧
    (filter_by_gender faces "male" ++ filter_by_gender faces "female").Perm
      (faces.filter (fun f => f.gender == 1 || f.gender == 0)) := by
  constructor
  · rintro f ⟨hm, hf⟩
    rw [filter_by_gender_male_eq] at hm
    rw [filter_by_gender_female_eq] at hf
    have h1 := (List.mem_filter.mp hm).2
    have h2 := (List.mem_filter.mp hf).2
    simp only [beq_iff_eq] at h1 h2
    omega
  · rw [filter_by_gender_male_eq, filter_by_gender_female_eq]
    refine filter_append_perm_of_exclusive _ _ (fun f hf => ?_) faces
    obtain ⟨h1, h2⟩ := hf
    simp only [beq_iff_eq] at h1 h2
    omega

/-- C10: for a class outside the documented enumerations, `filter_by_age`
and `filter_by_gender` return the empty list, unlike `sort_by_direction`,
which returns its input unchanged on an unrecognized direction. -/
theorem filter_unrecognized_class {α : Type} [LinearOrderedField α]
    (faces : List (Face α)) (a c d : String)
    (ha : ¬ a ∈ ["child", "teen", "adult", "senior"])
    (hc : ¬ c ∈ ["male", "female"])
    (hd : ¬ d ∈ ["left-right", "right-left", "top-bottom", "bottom-top",
      "small-large", "large-small"]) :
    filter_by_age faces a = [] ∧ filter_by_gender faces c = [] ∧
      sort_by_direction faces d = faces := by
  simp only [List.mem_cons, List.not_mem_nil, or_false, not_or] at ha hc hd
  obtain ⟨ha1, ha2, ha3, ha4⟩ := ha
  obtain ⟨hc1, hc2⟩ := hc
  obtain ⟨hd1, hd2, hd3, hd4, hd5, hd6⟩ := hd
  refine ⟨?_, ?_, ?_⟩
  · simp only [filter_by_age]
    refine List.filter_eq_nil_iff.mpr (fun f _ => ?_)
    simp [keep_by_age, ha1, ha2, ha3, ha4]
  · induction faces with
    | nil => rfl
    | cons f rest ih => simp [filter_by_gender, hc1, hc2, ih]
  · simp [sort_by_direction, hd1, hd2, hd3, hd4, hd5, hd6]

/-- Witness for C8 on a list with a male, a female and an invalid-gender
face. -/
theorem filter_by_gender_partition_witness :
    (filter_by_gender [mkFace 0 1 0, mkFace 0 0 1, mkFace 0 2 2] "male" ++
      filter_by_gender [mkFace 0 1 0, mkFace 0 0 1, mkFace 0 2 2]
        "female").Perm
      ([mkFace 0 1 0, mkFace 0 0 1, mkFace 0 2 2].filter
        (fun f => f.gender == 1 || f.gender == 0)) :=
  (filter_by_gender_partition [mkFace 0 1 0, mkFace 0 0 1, mkFace 0 2 2]).2

/-- Witness for C10 at the unrecognized classes `elder`, `diverse` and
`diagonal`. -/
theorem filter_unrecognized_class_witness :
    (¬ "elder" ∈ ["child", "teen", "adult", "senior"]) ∧
    (¬ "diverse" ∈ ["male", "female"]) ∧
    (¬ "diagonal" ∈ ["left-right", "right-left", "top-bottom", "bottom-top",
      "small-large", "large-small"]) ∧
    (filter_by_age [face59] "elder" = [] ∧
      filter_by_gender [face59] "diverse" = [] ∧
      sort_by_direction [face59] "diagonal" = [face59]) :=
  ⟨by decide, by decide, by decide,
    filter_unrecognized_class [face59] "elder" "diverse" "diagonal"
      (by decide) (by decide) (by decide)⟩

/-- Dividing every entry of a vector by `n` divides its sum of squares by
`n ^ 2` (also for `n = 0`, where both sides vanish). -/
theorem sumSq_map_div {α : Type} [LinearOrderedField α] (e : List α) (n : α) :
    sumSq (e.map (fun x => x / n)) = sumSq e / n ^ 2 := by
  induction e with
  | nil => simp [sumSq]
  | cons x xs ih =>
      simp only [List.map_cons, sumSq, List.sum_cons] at ih ⊢
      rw [ih, div_mul_div_comm, ← pow_two x, ← pow_two n, div_add_div_same]

/-- C9: every face produced by `extract_faces` carries
`normed_embedding = embedding / ‖embedding‖₂`; when the raw embedding is
non-zero its normed embedding has L2 norm exactly 1 — in particular any
nonnegative `m` with `m ^ 2 = ‖normed‖₂²` is within `1e-5` of 1.  The
collaborator norm is characterized by `norm ≥ 0` and `norm ^ 2 = sumSq`. -/
theorem extract_faces_normed_embedding {α : Type} [LinearOrderedField α]
    (env : Env α) (frame : Nat) (f : Face α)
    (hf : f ∈ extract_faces env frame)
    (hnn : 0 ≤ env.norm f.embedding)
    (hsq : env.norm f.embedding ^ 2 = sumSq f.embedding)
    (hnz : sumSq f.embedding ≠ 0) :
    f.normed_embedding =
      some (f.embedding.map (fun x => x / env.norm f.embedding)) ∧
    sumSq (f.normed_embedding.getD []) = 1 ∧
    ∀ m : α, 0 ≤ m → m ^ 2 = sumSq (f.normed_embedding.getD []) →
      |m - 1| < 1 / 100000 := by
  simp only [extract_faces] at hf
  by_cases hany : (env.detections frame).any Detection.isNonzero
  case neg =>
    rw [if_neg hany] at hf
    exact absurd hf (List.not_mem_nil f)
  case pos =>
    rw [if_pos hany] at hf
    obtain ⟨d, hd, rfl⟩ := List.mem_map.mp hf
    simp only at hsq hnz hnn
    have hone : sumSq ((env.embed frame d.kps).map
        (fun x => x / env.norm (env.embed frame d.kps))) = 1 := by
      rw [sumSq_map_div, hsq, div_self hnz]
    refine ⟨rfl, hone, ?_⟩
    · intro m hm hm2
      have hm1 : m ^ 2 = 1 := by
        rw [hm2]
        exact hone
      have hz : (m - 1) * (m + 1) = 0 := by linear_combination hm1
      rcases mul_eq_zero.mp hz with h | h
      · have hme : m = 1 := by linarith
        rw [hme, sub_self, abs_zero]
        norm_num
      · have hme : m = -1 := by linarith
        linarith

/-- Witness for C9 at the one-face environment: embedding `[3, 4]`, norm 5,
normed embedding `[3/5, 4/5]` of unit sum of squares. -/
theorem extract_faces_normed_embedding_witness :
    faceOne ∈ extract_faces envOneFace 0 ∧
    0 ≤ envOneFace.norm faceOne.embedding ∧
    envOneFace.norm faceOne.embedding ^ 2 = sumSq faceOne.embedding ∧
    sumSq faceOne.embedding ≠ 0 ∧
    faceOne.normed_embedding =
      some (faceOne.embedding.map
        (fun x => x / envOneFace.norm faceOne.embedding)) ∧
    sumSq (faceOne.normed_embedding.getD []) = 1 :=
  ⟨by
      rw [show extract_faces envOneFace 0 = [faceOne] from rfl]
      exact List.mem_singleton.mpr rfl,
    by norm_num [envOneFace, faceOne], by norm_num [envOneFace, faceOne, sumSq],
    by norm_num [faceOne, sumSq],
    (extract_faces_normed_embedding envOneFace 0 faceOne (by
      rw [show extract_faces envOneFace 0 = [faceOne] from rfl]
      exact List.mem_singleton.mpr rfl)
      (by norm_num [envOneFace, faceOne]) (by norm_num [envOneFace, faceOne, sumSq])
      (by norm_num [faceOne, sumSq])).1,
    (extract_faces_normed_embedding envOneFace 0 faceOne (by
      rw [show extract_faces envOneFace 0 = [faceOne] from rfl]
      exact List.mem_singleton.mpr rfl)
      (by norm_num [envOneFace, faceOne]) (by norm_num [envOneFace, faceOne, sumSq])
      (by norm_num [faceOne, sumSq])).2.1⟩
